import Mathlib

/-!
Shallow embedding of the `headless-orchestra` response decoding pipeline
(`src/api-layer/api_layer/client.py`) and the domain model validators
(`src/api-layer/api_layer/models.py`).

Strings from the Python code are modelled as `List Char` (all payloads in
scope are ASCII).  Python `dict` values produced by `json.loads` are
modelled as association lists in insertion order with unique keys.
-/

/-- Python `\w` character class, restricted to ASCII as used by the payloads. -/
def isWordChar (c : Char) : Bool := c.isAlphanum || c == '_'

/-- Python whitespace set used by `str.strip()` (ASCII part). -/
def pyIsSpace (c : Char) : Bool :=
  ([' ', '\t', '\n', '\r', '\x0b', '\x0c']).contains c

/-- Python `str.strip()` on character lists. -/
def pyStrip (l : List Char) : List Char :=
  ((l.dropWhile pyIsSpace).reverse.dropWhile pyIsSpace).reverse

/-- Python `str.split(sep)` for a one-character separator: always returns at
least one (possibly empty) part. -/
def pySplitChar (sep : Char) : List Char → List (List Char)
  | [] => [[]]
  | c :: rest =>
    if c == sep then [] :: pySplitChar sep rest
    else
      match pySplitChar sep rest with
      | [] => [[c]]
      | h :: t => (c :: h) :: t

/-- Scanner for `re.sub(r"(\w+):", r'"\1":', s)`: `run` is the pending
maximal word-character run; a colon right after a nonempty run emits the run
wrapped in double quotes, anything else flushes the run unchanged. -/
def qkGo : List Char → List Char → List Char
  | run, [] => run
  | run, c :: rest =>
    if isWordChar c then qkGo (run ++ [c]) rest
    else if c = ':' ∧ run ≠ [] then ('"' :: run) ++ '"' :: ':' :: qkGo [] rest
    else (run ++ [c]) ++ qkGo [] rest

/-- `re.sub(r"(\w+):", r'"\1":', s)` from `ProducerPalClient._parse_js_object`:
every maximal word-character run immediately followed by a colon is wrapped in
double quotes; scanning resumes after each replaced match. -/
def quoteKeys (l : List Char) : List Char := qkGo [] l

/-- Whether the text contains a word character immediately followed by a
colon, i.e. whether the key-quoting regex has at least one match. -/
def hasWordColon : List Char → Bool
  | [] => false
  | [_] => false
  | a :: b :: r => (isWordChar a && b == ':') || hasWordColon (b :: r)

/-- JSON values as produced by Python `json.loads`: objects are mappings in
insertion order with unique keys. -/
inductive Json where
  | null : Json
  | bool (b : Bool) : Json
  | num (q : ℚ) : Json
  | str (s : List Char) : Json
  | arr (elems : List Json) : Json
  | obj (kvs : List (String × Json)) : Json

/-- Key lookup in a decoded object, modelling Python `dict.get(key)`. -/
def lookupKey : List (String × Json) → String → Option Json
  | [], _ => none
  | (k, v) :: rest, key => if k == key then some v else lookupKey rest key

/-- Insertion during object construction, modelling Python `dict` build where a
duplicate key overwrites the earlier value in place. -/
def insertKey (kvs : List (String × Json)) (k : String) (v : Json) :
    List (String × Json) :=
  if kvs.any (fun p => p.1 == k) then
    kvs.map (fun p => if p.1 == k then (k, v) else p)
  else kvs ++ [(k, v)]

/-- JSON whitespace accepted by the Python decoder between tokens. -/
def isJsonWs (c : Char) : Bool := ([' ', '\t', '\n', '\r']).contains c

/-- Skip inter-token whitespace. -/
def skipWs (cs : List Char) : List Char := cs.dropWhile isJsonWs

/-- The escape-sequence table of the decoder: marker character paired with
the decoded character (the payloads in scope use no unicode escapes). -/
def escTable : List (Char × Char) :=
  [('"', '"'), ('\\', '\\'), ('/', '/'), ('n', '\n'),
    ('t', '\t'), ('r', '\r'), ('b', '\x08'), ('f', '\x0c')]

/-- Decode one string escape marker via the table. -/
def escChar (e : Char) : Option Char :=
  (escTable.find? (fun p => p.1 == e)).map (fun p => p.2)

/-- Parse the body of a JSON string after the opening quote; returns the
decoded characters and the remainder after the closing quote. -/
def parseStringBody : List Char → Option (List Char × List Char)
  | [] => none
  | '"' :: rest => some ([], rest)
  | '\\' :: e :: rest =>
    match escChar e with
    | some c =>
      match parseStringBody rest with
      | some (s, r) => some (c :: s, r)
      | none => none
    | none => none
  | c :: rest =>
    match parseStringBody rest with
    | some (s, r) => some (c :: s, r)
    | none => none

/-- Numeric value of a digit run. -/
def digitsToNat (ds : List Char) : Nat :=
  ds.foldl (fun a c => a * 10 + (c.toNat - 48)) 0

/-- Parse a JSON number (optional minus sign, digits, optional fraction; the
payloads in scope use no exponents). -/
def parseNumber (cs : List Char) : Option (ℚ × List Char) :=
  let signAndRest : Bool × List Char :=
    match cs with
    | '-' :: r => (true, r)
    | _ => (false, cs)
  let neg := signAndRest.1
  let cs1 := signAndRest.2
  let ds := cs1.takeWhile Char.isDigit
  let rest1 := cs1.dropWhile Char.isDigit
  if ds.isEmpty then none
  else
    match rest1 with
    | '.' :: r2 =>
      let fs := r2.takeWhile Char.isDigit
      let rest2 := r2.dropWhile Char.isDigit
      if fs.isEmpty then none
      else
        let q : ℚ := (digitsToNat ds : ℚ) + (digitsToNat fs : ℚ) / ((10 : ℚ) ^ fs.length)
        some (if neg then -q else q, rest2)
    | _ =>
      let q : ℚ := (digitsToNat ds : ℚ)
      some (if neg then -q else q, rest1)

mutual

/-- Fuel-indexed recursive-descent JSON value parser modelling `json.loads`. -/
def parseValue : Nat → List Char → Option (Json × List Char)
  | 0, _ => none
  | n + 1, cs =>
    match skipWs cs with
    | '"' :: rest =>
      match parseStringBody rest with
      | some (s, r) => some (Json.str s, r)
      | none => none
    | '\x7b' :: rest =>
      match skipWs rest with
      | '\x7d' :: r2 => some (Json.obj [], r2)
      | cs2 => parseMembers n cs2 []
    | '[' :: rest =>
      match skipWs rest with
      | ']' :: r2 => some (Json.arr [], r2)
      | cs2 => parseElems n cs2 []
    | 't' :: 'r' :: 'u' :: 'e' :: r => some (Json.bool true, r)
    | 'f' :: 'a' :: 'l' :: 's' :: 'e' :: r => some (Json.bool false, r)
    | 'n' :: 'u' :: 'l' :: 'l' :: r => some (Json.null, r)
    | cs1 =>
      match parseNumber cs1 with
      | some (q, r) => some (Json.num q, r)
      | none => none

/-- Parse the members of a nonempty JSON object. -/
def parseMembers : Nat → List Char → List (String × Json) →
    Option (Json × List Char)
  | 0, _, _ => none
  | n + 1, cs, acc =>
    match skipWs cs with
    | '"' :: rest =>
      match parseStringBody rest with
      | some (k, r1) =>
        match skipWs r1 with
        | ':' :: r2 =>
          match parseValue n r2 with
          | some (v, r3) =>
            match skipWs r3 with
            | ',' :: r4 => parseMembers n r4 (insertKey acc (String.mk k) v)
            | '\x7d' :: r4 => some (Json.obj (insertKey acc (String.mk k) v), r4)
            | _ => none
          | none => none
        | _ => none
      | none => none
    | _ => none

/-- Parse the elements of a nonempty JSON array. -/
def parseElems : Nat → List Char → List Json → Option (Json × List Char)
  | 0, _, _ => none
  | n + 1, cs, acc =>
    match parseValue n cs with
    | some (v, r1) =>
      match skipWs r1 with
      | ',' :: r2 => parseElems n r2 (acc ++ [v])
      | ']' :: r2 => some (Json.arr (acc ++ [v]), r2)
      | _ => none
    | none => none

end

/-- Python `json.loads`: parse one JSON value and require only whitespace
after it. -/
def jsonLoads (cs : List Char) : Option Json :=
  match parseValue (2 * cs.length + 2) cs with
  | some (v, rest) => if (skipWs rest).isEmpty then some v else none
  | none => none

/-- Key names used by the RPC envelope and content blocks. -/
def kError : String := "error"

/-- The `result` key of the RPC envelope. -/
def kResult : String := "result"

/-- The `content` key of the unwrapped result. -/
def kContent : String := "content"

/-- The discriminator key of a content block. -/
def kType : String := "type"

/-- The payload key of a text content block. -/
def kText : String := "text"

/-- The discriminator value selecting stage 3. -/
def textVal : List Char := ("text").toList

/-- The default stage-3 input `"\x7b\x7d"` used when the text field is absent. -/
def emptyObjText : List Char := ("\x7b\x7d").toList

/-- Errors raised by the decode portion of `ProducerPalClient._call_tool`.
`sseNoData` is the `ValueError` from `_parse_sse`; `jsonDecode` models
`json.JSONDecodeError`; `protocolError` is the `ValueError` raised on a truthy
`error` member and carries the error value; the remaining constructors model
the Python `TypeError`, `AttributeError` and `KeyError` raised on result
shapes outside the expected format. -/
inductive DecodeErr where
  | sseNoData : DecodeErr
  | jsonDecode : DecodeErr
  | protocolError (e : Json) : DecodeErr
  | typeError : DecodeErr
  | attributeError : DecodeErr
  | keyError : DecodeErr

/-- The literal prefix scanned for by `_parse_sse`. -/
def dataMarker : List Char := ("data: ").toList

/-- `ProducerPalClient._parse_sse`: strip the body, split on newline, return
`json.loads` of the remainder of the first line starting with the marker. -/
def parse_sse (body : List Char) : Except DecodeErr Json :=
  match (pySplitChar '\n' (pyStrip body)).find? (fun l => dataMarker.isPrefixOf l) with
  | some l =>
    match jsonLoads (l.drop 6) with
    | some j => Except.ok j
    | none => Except.error DecodeErr.jsonDecode
  | none => Except.error DecodeErr.sseNoData

/-- `ProducerPalClient._parse_js_object`: quote bare keys, then `json.loads`. -/
def parse_js_object (s : List Char) : Except DecodeErr Json :=
  match jsonLoads (quoteKeys s) with
  | some j => Except.ok j
  | none => Except.error DecodeErr.jsonDecode

/-- Python truthiness of a decoded JSON value. -/
def pyTruthy : Json → Bool
  | Json.null => false
  | Json.bool b => b
  | Json.num q => !(q == 0)
  | Json.str s => !s.isEmpty
  | Json.arr xs => !xs.isEmpty
  | Json.obj kvs => !kvs.isEmpty

/-- `env.get(key)` guarded by the `isinstance(env, dict)` checks of
`_call_tool`: `none` when the envelope is not a mapping. -/
def envGet (env : Json) (key : String) : Option Json :=
  match env with
  | Json.obj kvs => lookupKey kvs key
  | _ => none

/-- Line 115 of client.py: `isinstance(env, dict) and env.get("error")`. -/
def hasRpcError (env : Json) : Bool :=
  match envGet env kError with
  | some e => pyTruthy e
  | none => false

/-- Line 119 of client.py: `env.get("result", \x7b\x7d) if isinstance(env, dict)
else \x7b\x7d`. -/
def resultOf (env : Json) : Json :=
  match env with
  | Json.obj kvs => (lookupKey kvs kResult).getD (Json.obj [])
  | _ => Json.obj []

/-- Python `content[0].get("type") == "text"` for a mapping first block. -/
def isTextType : Option Json → Bool
  | some (Json.str s) => s == textVal
  | _ => false

/-- Lines 120-127 of client.py: extract `content` from the unwrapped result,
run stage 3 on the first text block, otherwise return the result mapping.
Result shapes on which the Python code would raise `TypeError`,
`AttributeError` or `KeyError` map to the corresponding error values. -/
def handleResult (result : Json) : Except DecodeErr Json :=
  match result with
  | Json.obj rkvs =>
    match (lookupKey rkvs kContent).getD (Json.arr []) with
    | Json.arr [] => Except.ok (Json.obj rkvs)
    | Json.arr (b :: _) =>
      match b with
      | Json.obj bkvs =>
        if isTextType (lookupKey bkvs kType) then
          match (lookupKey bkvs kText).getD (Json.str emptyObjText) with
          | Json.str s => parse_js_object s
          | _ => Except.error DecodeErr.typeError
        else Except.ok (Json.obj rkvs)
      | _ => Except.error DecodeErr.attributeError
    | Json.null => Except.ok (Json.obj rkvs)
    | Json.bool false => Except.ok (Json.obj rkvs)
    | Json.bool true => Except.error DecodeErr.typeError
    | Json.num q => if q == 0 then Except.ok (Json.obj rkvs) else Except.error DecodeErr.typeError
    | Json.str s => if s.isEmpty then Except.ok (Json.obj rkvs) else Except.error DecodeErr.attributeError
    | Json.obj ckvs => if ckvs.isEmpty then Except.ok (Json.obj rkvs) else Except.error DecodeErr.keyError
  | _ => Except.error DecodeErr.attributeError

/-- Lines 114-127 of client.py: the error check followed by result unwrap. -/
def processEnvelope (env : Json) : Except DecodeErr Json :=
  if hasRpcError env then
    Except.error (DecodeErr.protocolError ((envGet env kError).getD Json.null))
  else handleResult (resultOf env)

/-- `json.loads` on the whole body in the plain-JSON branch of stage 1. -/
def jsonLoadsE (body : List Char) : Except DecodeErr Json :=
  match jsonLoads body with
  | some j => Except.ok j
  | none => Except.error DecodeErr.jsonDecode

/-- The content-type token tested for in line 109 of client.py. -/
def eventStreamToken : List Char := ("text/event-stream").toList

/-- Python substring membership `needle in haystack`. -/
def listIsSubstring (needle : List Char) : List Char → Bool
  | [] => needle.isEmpty
  | c :: rest => needle.isPrefixOf (c :: rest) || listIsSubstring needle rest

/-- Lines 108-112 of client.py: framing normalization. -/
def stage1 (contentType body : List Char) : Except DecodeErr Json :=
  if listIsSubstring eventStreamToken contentType then parse_sse body
  else jsonLoadsE body

/-- The full decode portion of `_call_tool` (lines 108-127). -/
def callToolDecode (contentType body : List Char) : Except DecodeErr Json :=
  match stage1 contentType body with
  | Except.ok env => processEnvelope env
  | Except.error e => Except.error e

/-- Outcome of the `requests.post` exchange, modelling the transport
collaborator at its boundary: a response; a connection failure exception
(requests' ConnectionError, whose subclass ConnectTimeout covers expiry of
the 30-unit timeout during the connect phase) — the one exception class
caught in lines 128-131; or expiry of the same 30-unit timeout during the
read phase, for which requests raises ReadTimeout, a Timeout that is NOT a
ConnectionError subclass and so is not caught by the except clause. -/
inductive TransportOutcome where
  | success (contentType : List Char) (status : Nat) (body : List Char) : TransportOutcome
  | connectionError (cause : List Char) : TransportOutcome
  | readTimeout (cause : List Char) : TransportOutcome

/-- Errors surfaced by `_call_tool` as a whole: the `ConnectionError` it
raises itself; the HTTP status error propagated from `raise_for_status`; the
ReadTimeout exception propagated unmodified because `except
RequestsConnectionError` does not match it; and the decoder errors. -/
inductive CallErr where
  | connectionFailure (addr cause : List Char) : CallErr
  | httpError (status : Nat) : CallErr
  | readTimeoutError (cause : List Char) : CallErr
  | decodeErr (e : DecodeErr) : CallErr

/-- `ProducerPalClient._call_tool` over a transport outcome: lines 96-131.
Only the connection-error outcome is converted to the address-carrying
`connectionFailure`; a read-phase timeout passes through untranslated. -/
def callTool (baseUrl : List Char) (o : TransportOutcome) : Except CallErr Json :=
  match o with
  | TransportOutcome.connectionError cause =>
    Except.error (CallErr.connectionFailure baseUrl cause)
  | TransportOutcome.readTimeout cause =>
    Except.error (CallErr.readTimeoutError cause)
  | TransportOutcome.success ct status body =>
    if 400 ≤ status ∧ status ≤ 599 then Except.error (CallErr.httpError status)
    else
      match callToolDecode ct body with
      | Except.ok j => Except.ok j
      | Except.error e => Except.error (CallErr.decodeErr e)

/-- Whether a call outcome is the address-carrying connection failure raised
by `_call_tool` itself. -/
def isConnectionFailure : Except CallErr Json → Bool
  | Except.error (CallErr.connectionFailure _ _) => true
  | _ => false

/-- Accumulating digit scanner for Python `int(str)`: single underscores are
allowed between digits. -/
def pyIntGo : Nat → List Char → Option Nat
  | acc, [] => some acc
  | _, ['_'] => none
  | acc, '_' :: d :: rest =>
    if d.isDigit then pyIntGo (acc * 10 + (d.toNat - 48)) rest else none
  | acc, d :: rest =>
    if d.isDigit then pyIntGo (acc * 10 + (d.toNat - 48)) rest else none

/-- Python `int(str)` for ASCII input: surrounding whitespace stripped,
optional sign, then digits with optional single underscore separators. -/
def pyInt (s : List Char) : Option Int :=
  match pyStrip s with
  | '+' :: d :: rest =>
    if d.isDigit then (pyIntGo (d.toNat - 48) rest).map (fun n => (n : Int)) else none
  | '-' :: d :: rest =>
    if d.isDigit then (pyIntGo (d.toNat - 48) rest).map (fun n => -(n : Int)) else none
  | '+' :: [] => none
  | '-' :: [] => none
  | d :: rest =>
    if d.isDigit then (pyIntGo (d.toNat - 48) rest).map (fun n => (n : Int)) else none
  | [] => none

/-- Common body of the three composite-field validators of models.py:
require the separator, an exact two-way split, and two `int()`-parsable
parts; return the value unchanged. -/
def validateTwoPart (sep : Char) (v : List Char) : Option (List Char) :=
  if sep ∈ v then
    match pySplitChar sep v with
    | [a, b] => if (pyInt a).isSome && (pyInt b).isSome then some v else none
    | _ => none
  else none

/-- `Note.validate_start_format` from models.py. -/
def validate_start : List Char → Option (List Char) := validateTwoPart '|'

/-- `Note.validate_duration_format` from models.py. -/
def validate_duration : List Char → Option (List Char) := validateTwoPart ':'

/-- `Clip.validate_length_format` from models.py. -/
def validate_length : List Char → Option (List Char) := validateTwoPart ':'

/-- The property a composite positional field is specified to satisfy: an
exact two-way split on the designated separator with both parts
`int()`-parsable. -/
def twoIntParts (sep : Char) (v : List Char) : Bool :=
  match pySplitChar sep v with
  | [a, b] => (pyInt a).isSome && (pyInt b).isSome
  | _ => false

/-- The `Note` model of models.py. -/
structure Note where
  pitch : List Char
  start : List Char
  duration : List Char
  velocity : Int
  probability : ℚ
deriving DecidableEq

/-- A `Note` that passes its pydantic validation: format validators accept
`start` and `duration`, and the range constraints on `velocity` and
`probability` hold. -/
def Note.Valid (n : Note) : Prop :=
  validate_start n.start = some n.start ∧
  validate_duration n.duration = some n.duration ∧
  0 ≤ n.velocity ∧ n.velocity ≤ 127 ∧
  0 ≤ n.probability ∧ n.probability ≤ 1

instance (n : Note) : Decidable n.Valid := by
  unfold Note.Valid
  infer_instance

/-- Keys of the serialized note mapping produced by `note.model_dump()`. -/
def kPitch : String := "pitch"

/-- The `start` key. -/
def kStart : String := "start"

/-- The `duration` key. -/
def kDuration : String := "duration"

/-- The `velocity` key. -/
def kVelocity : String := "velocity"

/-- The `probability` key. -/
def kProbability : String := "probability"

/-- The `id` key of a clip mapping. -/
def kId : String := "id"

/-- The `name` key of a clip mapping. -/
def kName : String := "name"

/-- The `notes` key of a clip mapping. -/
def kNotes : String := "notes"

/-- The `length` key of a clip mapping. -/
def kLength : String := "length"

/-- `note.model_dump()` from `create_midi_clip` (client.py lines 184-187):
a mapping with the five declared fields in declaration order. -/
def dumpNote (n : Note) : Json :=
  Json.obj [(kPitch, Json.str n.pitch), (kStart, Json.str n.start),
    (kDuration, Json.str n.duration), (kVelocity, Json.num (n.velocity : ℚ)),
    (kProbability, Json.num n.probability)]

/-- Extract a required string field, as pydantic does for `str` fields
(non-string values are rejected). -/
def strField (kvs : List (String × Json)) (k : String) : Option (List Char) :=
  match lookupKey kvs k with
  | some (Json.str s) => some s
  | _ => none

/-- Pydantic materialization of an `int` field: exact integers, integral
numbers and `int()`-parsable strings are accepted; booleans are rejected. -/
def intFromJson : Json → Option Int
  | Json.num q => if q.den == 1 then some q.num else none
  | Json.str s => pyInt s
  | _ => none

/-- Pydantic materialization of one element of `Clip.notes` into a `Note`:
required string fields, the two format validators, and the range-checked
defaulted fields. -/
def noteFromJson : Json → Option Note
  | Json.obj kvs => do
    let pitch ← strField kvs kPitch
    let start0 ← strField kvs kStart
    let start1 ← validate_start start0
    let dur0 ← strField kvs kDuration
    let dur1 ← validate_duration dur0
    let vel ← match lookupKey kvs kVelocity with
      | none => some (80 : Int)
      | some j => (intFromJson j).bind (fun i => if 0 ≤ i ∧ i ≤ 127 then some i else none)
    let prob ← match lookupKey kvs kProbability with
      | none => some (1 : ℚ)
      | some (Json.num q) => if 0 ≤ q ∧ q ≤ 1 then some q else none
      | some _ => none
    some (Note.mk pitch start1 dur1 vel prob)
  | _ => none

/-- Materialize every element of the `notes` sequence, in order. -/
def notesFromJson : List Json → Option (List Note)
  | [] => some []
  | j :: rest => do
    let n ← noteFromJson j
    let ns ← notesFromJson rest
    some (n :: ns)

/-- The `Clip` model of models.py. -/
structure Clip where
  id : Int
  name : List Char
  notes : List Note
  length : List Char
deriving DecidableEq

/-- `Clip.model_validate` on a decoded mapping. -/
def clipFromJson : Json → Option Clip
  | Json.obj kvs => do
    let idv ← (lookupKey kvs kId).bind intFromJson
    let namev ← strField kvs kName
    let notesJ ← match lookupKey kvs kNotes with
      | some (Json.arr xs) => some xs
      | _ => none
    let notes ← notesFromJson notesJ
    let len0 ← strField kvs kLength
    let len1 ← validate_length len0
    some (Clip.mk idv namev notes len1)
  | _ => none

/-- A concrete valid note used to instantiate the universally quantified
theorems. -/
def witnessNote : Note :=
  Note.mk (("C3").toList) (("1|1").toList) (("1:0").toList) 80 1

theorem hasWordColon_cons (c : Char) (l : List Char)
    (h : hasWordColon (c :: l) = false) : hasWordColon l = false := by
  cases l with
  | nil => rfl
  | cons d r =>
    simp only [hasWordColon, Bool.or_eq_false_iff] at h
    exact h.2

/-- If the key-quoting regex has no match, the scanner flushes everything
unchanged. -/
theorem qkGo_no_match (l : List Char) :
    ∀ run, hasWordColon l = false → (run = [] ∨ ∀ t, l ≠ ':' :: t) →
      qkGo run l = run ++ l := by
  induction l with
  | nil =>
    intro run _ _
    simp [qkGo]
  | cons c rest ih =>
    intro run h hrun
    rw [qkGo]
    by_cases hw : isWordChar c
    · rw [if_pos hw]
      have hrest : hasWordColon rest = false := hasWordColon_cons c rest h
      have hhead : ∀ t, rest ≠ ':' :: t := by
        intro t heq
        subst heq
        simp [hasWordColon, hw] at h
      rw [ih (run ++ [c]) hrest (Or.inr hhead), List.append_assoc]
      rfl
    · rw [if_neg hw]
      have hcolon : ¬(c = ':' ∧ run ≠ []) := by
        rintro ⟨rfl, hne⟩
        rcases hrun with h0 | hh
        · exact hne h0
        · exact hh rest rfl
      rw [if_neg hcolon, ih [] (hasWordColon_cons c rest h) (Or.inl rfl),
        List.append_assoc]
      rfl

/-- If the key-quoting regex has no match, the transform is the identity. -/
theorem quoteKeys_eq_self (l : List Char) (h : hasWordColon l = false) :
    quoteKeys l = l := by
  have := qkGo_no_match l [] h (Or.inl rfl)
  simpa [quoteKeys] using this

/-- C1 (counterexample): the stage-3 bare-key quoting transform is not
idempotent on every already-quoted input.  The text `\x7b"a":"b: 1"\x7d` has its
only key double-quoted and parses to a mapping, yet the transform rewrites
the `b:` shape inside the string value, so the transformed text no longer
parses at all. -/
theorem c1_counterexample :
    jsonLoads (("\x7b\"a\":\"b: 1\"\x7d").toList) =
      some (Json.obj [(("a"), Json.str (("b: 1").toList))]) ∧
    quoteKeys (("\x7b\"a\":\"b: 1\"\x7d").toList) ≠ ("\x7b\"a\":\"b: 1\"\x7d").toList ∧
    jsonLoads (quoteKeys (("\x7b\"a\":\"b: 1\"\x7d").toList)) = none := by
  refine ⟨rfl, ?_, rfl⟩
  decide

/-- C1 (amended): for every text that parses as JSON to a mapping `m` and in
which no word-character run immediately precedes a colon — in particular all
object keys are already double-quoted and no string value contains a
`word:` shape — the quoting transform leaves the text unchanged, so applying
it and re-parsing yields exactly `m`. -/
theorem c1_quoting_transform_identity (s : List Char) (m : Json)
    (hparse : jsonLoads s = some m) (hnone : hasWordColon s = false) :
    quoteKeys s = s ∧ jsonLoads (quoteKeys s) = some m := by
  have hid := quoteKeys_eq_self s hnone
  exact ⟨hid, by rw [hid]; exact hparse⟩

/-- Witness for C1 at the already-quoted text `\x7b"a":1\x7d`. -/
theorem c1_quoting_transform_identity_witness :
    quoteKeys (("\x7b\"a\":1\x7d").toList) = ("\x7b\"a\":1\x7d").toList ∧
    jsonLoads (quoteKeys (("\x7b\"a\":1\x7d").toList)) =
      some (Json.obj [(("a"), Json.num 1)]) :=
  c1_quoting_transform_identity (("\x7b\"a\":1\x7d").toList)
    (Json.obj [(("a"), Json.num 1)]) rfl (by decide)

theorem lookupKey_ne_nil {kvs : List (String × Json)} {k : String} {v : Json}
    (h : lookupKey kvs k = some v) : kvs ≠ [] := by
  intro hnil
  subst hnil
  simp [lookupKey] at h

/-- C2: for every decoded RPC envelope carrying an error object that has
`code` and `message` members, the decode step fails with the protocol error
carrying that error value — even when a `result` member is also present —
and no result value is returned. -/
theorem c2_error_envelope_aborts (env e c msg : Json)
    (herr : envGet env kError = some e)
    (hcode : envGet e (("code")) = some c)
    (hmsg : envGet e (("message")) = some msg) :
    processEnvelope env = Except.error (DecodeErr.protocolError e) := by
  have htruthy : pyTruthy e = true := by
    cases e with
    | obj kvs2 =>
      cases kvs2 with
      | nil => simp [envGet, lookupKey] at hcode
      | cons p rest => simp [pyTruthy]
    | null => simp [envGet] at hcode
    | bool b => simp [envGet] at hcode
    | num q => simp [envGet] at hcode
    | str s => simp [envGet] at hcode
    | arr xs => simp [envGet] at hcode
  have hhas : hasRpcError env = true := by
    simp [hasRpcError, herr, htruthy]
  rw [processEnvelope, if_pos hhas, herr]
  rfl

/-- Witness for C2: an envelope with both a populated error object and a
result member aborts with the protocol error. -/
theorem c2_error_envelope_aborts_witness :
    processEnvelope (Json.obj [((kError),
        Json.obj [((("code")), Json.num (-32600)), ((("message")), Json.str (("Invalid params").toList))]),
      ((kResult), Json.obj [(("x"), Json.num 1)])]) =
      Except.error (DecodeErr.protocolError
        (Json.obj [((("code")), Json.num (-32600)), ((("message")), Json.str (("Invalid params").toList))])) :=
  c2_error_envelope_aborts _ _ _ _ rfl rfl rfl

/-- C9: when the decoded RPC envelope is not a mapping, the decode step does
not fail: the error check is skipped and the empty mapping is returned. -/
theorem c9_non_mapping_envelope (env : Json)
    (h : ∀ kvs, env ≠ Json.obj kvs) :
    processEnvelope env = Except.ok (Json.obj []) := by
  have hhas : hasRpcError env = false := by
    cases env with
    | obj kvs => exact absurd rfl (h kvs)
    | null => rfl
    | bool b => rfl
    | num q => rfl
    | str s => rfl
    | arr xs => rfl
  have hres : resultOf env = Json.obj [] := by
    cases env with
    | obj kvs => exact absurd rfl (h kvs)
    | null => rfl
    | bool b => rfl
    | num q => rfl
    | str s => rfl
    | arr xs => rfl
  rw [processEnvelope, if_neg (by rw [hhas]; exact Bool.false_ne_true), hres]
  rfl

/-- Witness for C9 at a JSON array envelope. -/
theorem c9_non_mapping_envelope_witness :
    processEnvelope (Json.arr [Json.num 1]) = Except.ok (Json.obj []) :=
  c9_non_mapping_envelope (Json.arr [Json.num 1]) (fun kvs h => by cases h)

/-- C10: when the first content block has discriminator "text" but no `text`
member, stage 3 runs on the default text `\x7b\x7d` and the pipeline returns the
empty mapping instead of failing. -/
theorem c10_missing_text_defaults (env : Json) (rkvs bkvs : List (String × Json))
    (bs : List Json)
    (hnoerr : hasRpcError env = false)
    (hres : resultOf env = Json.obj rkvs)
    (hcontent : lookupKey rkvs kContent = some (Json.arr (Json.obj bkvs :: bs)))
    (htype : lookupKey bkvs kType = some (Json.str textVal))
    (hnotext : lookupKey bkvs kText = none) :
    processEnvelope env = Except.ok (Json.obj []) := by
  rw [processEnvelope, if_neg (by rw [hnoerr]; exact Bool.false_ne_true), hres]
  rw [handleResult]
  rw [hcontent]
  simp only [Option.getD_some]
  rw [htype]
  simp only [isTextType, beq_self_eq_true, if_true]
  rw [hnotext]
  rfl

/-- Witness for C10: a text block with no text member yields the empty
mapping. -/
theorem c10_missing_text_defaults_witness :
    processEnvelope (Json.obj [((kResult), Json.obj [((kContent),
      Json.arr [Json.obj [((kType), Json.str textVal)]])])]) =
      Except.ok (Json.obj []) :=
  c10_missing_text_defaults _ _ _ _ rfl rfl rfl rfl rfl

/-- C5: for every error-free plain-JSON envelope whose unwrapped result
mapping has no content sequence, an empty one, or a first block whose
discriminator is not "text", decoding returns exactly the result mapping
(the empty mapping when `result` is absent) and stage 3 is not applied. -/
theorem c5_result_passthrough (ct body : List Char)
    (ekvs rkvs : List (String × Json))
    (hframe : listIsSubstring eventStreamToken ct = false)
    (hbody : jsonLoads body = some (Json.obj ekvs))
    (hnoerr : hasRpcError (Json.obj ekvs) = false)
    (hres : (lookupKey ekvs kResult).getD (Json.obj []) = Json.obj rkvs)
    (hcontent : lookupKey rkvs kContent = none ∨
      lookupKey rkvs kContent = some (Json.arr []) ∨
      ∃ bkvs bs, lookupKey rkvs kContent = some (Json.arr (Json.obj bkvs :: bs)) ∧
        isTextType (lookupKey bkvs kType) = false) :
    callToolDecode ct body = Except.ok (Json.obj rkvs) := by
  have hstage : stage1 ct body = Except.ok (Json.obj ekvs) := by
    rw [stage1, if_neg (by rw [hframe]; exact Bool.false_ne_true), jsonLoadsE, hbody]
  rw [callToolDecode, hstage]
  show processEnvelope (Json.obj ekvs) = Except.ok (Json.obj rkvs)
  rw [processEnvelope, if_neg (by rw [hnoerr]; exact Bool.false_ne_true)]
  have hres2 : resultOf (Json.obj ekvs) = Json.obj rkvs := by
    simp only [resultOf]
    exact hres
  rw [hres2, handleResult]
  rcases hcontent with h | h | ⟨bkvs, bs, h, ht⟩
  · rw [h]
    rfl
  · rw [h]
    rfl
  · rw [h]
    simp only [Option.getD_some]
    rw [if_neg (by rw [ht]; exact Bool.false_ne_true)]

/-- Witness for C5: a plain-JSON envelope whose result has no content member
decodes to exactly that result mapping. -/
theorem c5_result_passthrough_witness :
    callToolDecode (("application/json").toList)
        (("\x7b\"result\":\x7b\"tempo\":120\x7d\x7d").toList) =
      Except.ok (Json.obj [(("tempo"), Json.num 120)]) :=
  c5_result_passthrough _ _ _ _ rfl rfl rfl rfl (Or.inl rfl)

theorem pySplitChar_not_mem (sep : Char) (l : List Char) (h : sep ∉ l) :
    pySplitChar sep l = [l] := by
  induction l with
  | nil => rfl
  | cons c rest ih =>
    rw [pySplitChar]
    have hc : ¬ (c == sep) = true := by
      simp only [beq_iff_eq]
      intro hh
      exact h (hh ▸ List.mem_cons_self c rest)
    rw [if_neg hc, ih (fun hm => h (List.mem_cons_of_mem c hm))]

theorem validateTwoPart_eq (sep : Char) (v : List Char) :
    validateTwoPart sep v = if twoIntParts sep v = true then some v else none := by
  by_cases hmem : sep ∈ v
  · rw [validateTwoPart, if_pos hmem, twoIntParts]
    cases hsplit : pySplitChar sep v with
    | nil => rfl
    | cons a rest =>
      cases rest with
      | nil => rfl
      | cons b rest2 =>
        cases rest2 with
        | nil => rfl
        | cons c rest3 => rfl
  · rw [validateTwoPart, if_neg hmem, twoIntParts, pySplitChar_not_mem sep v hmem]
    rfl

/-- C6: each composite positional field validator accepts a value exactly
when it splits into two `int()`-parsable parts on its designated separator,
returning the value itself (never a substituted default); in particular
`start="1-1"` and `duration="four:zero"` fail while `start="1|1"` and
`duration="4:0"` succeed. -/
theorem c6_composite_field_validation :
    (∀ v, validate_start v = if twoIntParts '|' v = true then some v else none) ∧
    (∀ v, validate_duration v = if twoIntParts ':' v = true then some v else none) ∧
    (∀ v, validate_length v = if twoIntParts ':' v = true then some v else none) ∧
    validate_start (("1-1").toList) = none ∧
    validate_start (("1|1").toList) = some (("1|1").toList) ∧
    validate_duration (("4:0").toList) = some (("4:0").toList) ∧
    validate_duration (("four:zero").toList) = none :=
  ⟨fun v => validateTwoPart_eq '|' v, fun v => validateTwoPart_eq ':' v,
    fun v => validateTwoPart_eq ':' v, by decide, by decide, by decide, by decide⟩

/-- Witness for C6 applying the general equation at `start="1|1"`. -/
theorem c6_composite_field_validation_witness :
    validate_start (("1|1").toList) =
      if twoIntParts '|' (("1|1").toList) = true then some (("1|1").toList) else none :=
  c6_composite_field_validation.1 (("1|1").toList)

/-- C3 (counterexample): `_parse_sse` strips the body before splitting it
into lines, so for the body `" data: 1"` — none of whose own lines begins
with the `data: ` marker, which per the claim should be a framing error —
stage 1 nevertheless succeeds and decodes `1`. -/
theorem c3_counterexample :
    ((pySplitChar '\n' ((" data: 1").toList)).all
      (fun l => !(dataMarker.isPrefixOf l))) = true ∧
    parse_sse ((" data: 1").toList) = Except.ok (Json.num 1) :=
  ⟨by decide, rfl⟩

/-- C3 (amended): stage 1 scans the lines of the whitespace-stripped body:
if the first line beginning with `data: ` exists, its remainder is decoded
as JSON and used as the envelope; if no stripped line begins with `data: `,
stage 1 fails with the no-data framing error. -/
theorem c3_sse_framing (body : List Char) :
    (∀ l, (pySplitChar '\n' (pyStrip body)).find?
        (fun x => dataMarker.isPrefixOf x) = some l →
      parse_sse body = jsonLoadsE (l.drop 6)) ∧
    ((∀ l ∈ pySplitChar '\n' (pyStrip body), ¬ dataMarker.isPrefixOf l = true) →
      parse_sse body = Except.error DecodeErr.sseNoData) := by
  constructor
  · intro l hfind
    rw [parse_sse, hfind, jsonLoadsE]
  · intro hall
    have hnone : (pySplitChar '\n' (pyStrip body)).find?
        (fun x => dataMarker.isPrefixOf x) = none :=
      List.find?_eq_none.mpr hall
    rw [parse_sse, hnone]

/-- Witness for C3 at the body `"data: 1"`. -/
theorem c3_sse_framing_witness :
    parse_sse (("data: 1").toList) = jsonLoadsE ((("data: 1").toList).drop 6) :=
  (c3_sse_framing (("data: 1").toList)).1 (("data: 1").toList) rfl

/-- C4: the three-stage decode of the event-stream body carrying the
doubly-encoded text `\x7btempo:120,tracks:[]\x7d` returns exactly the mapping
with `tempo` 120 and empty `tracks`. -/
theorem c4_full_pipeline_scenario :
    callToolDecode eventStreamToken
      (("data: \x7b\"result\":\x7b\"content\":[\x7b\"type\":\"text\",\"text\":\"\x7btempo:120,tracks:[]\x7d\"\x7d]\x7d\x7d\n\n").toList) =
      Except.ok (Json.obj [(("tempo"), Json.num 120), (("tracks"), Json.arr [])]) := rfl

/-- Re-validating the serialized form of a valid note reproduces it. -/
theorem noteFromJson_dumpNote (n : Note) (h : n.Valid) :
    noteFromJson (dumpNote n) = some n := by
  obtain ⟨h1, h2, h3, h4, h5, h6⟩ := h
  simp [dumpNote, noteFromJson, strField, lookupKey, kPitch, kStart,
    kDuration, kVelocity, kProbability, intFromJson, h1, h2]
  rw [if_pos (And.intro h3 h4), Option.some_bind, if_pos (And.intro h5 h6)]

/-- Re-validating a serialized sequence of valid notes reproduces the
sequence in order. -/
theorem notesFromJson_map_dump (notes : List Note) (h : ∀ n ∈ notes, n.Valid) :
    notesFromJson (notes.map dumpNote) = some notes := by
  induction notes with
  | nil => rfl
  | cons n rest ih =>
    simp only [List.map_cons, notesFromJson]
    rw [noteFromJson_dumpNote n (h n (List.mem_cons_self n rest))]
    simp only [Option.bind_eq_bind, Option.some_bind]
    rw [ih (fun m hm => h m (List.mem_cons_of_mem n hm))]
    rfl

/-- C7: serializing a sequence of valid notes as create-clip argument
mappings (pitch, start, duration, velocity, probability) and re-validating a
clip whose notes member is exactly that serialized sequence yields notes
equal to the originals, in the same order, with the same pitch, start,
duration and velocity values. -/
theorem c7_note_roundtrip (notes : List Note) (idn : Int)
    (nm len : List Char)
    (hnotes : ∀ n ∈ notes, n.Valid)
    (hlen : validate_length len = some len) :
    clipFromJson (Json.obj [((kId), Json.num (idn : ℚ)), ((kName), Json.str nm),
      ((kNotes), Json.arr (notes.map dumpNote)), ((kLength), Json.str len)]) =
      some (Clip.mk idn nm notes len) := by
  simp [clipFromJson, lookupKey, strField, kId, kName, kNotes, kLength,
    intFromJson, notesFromJson_map_dump notes hnotes, hlen]

/-- Witness for C7 at a one-note clip. -/
theorem c7_note_roundtrip_witness :
    clipFromJson (Json.obj [((kId), Json.num ((3 : Int) : ℚ)),
      ((kName), Json.str (("clip").toList)),
      ((kNotes), Json.arr ([witnessNote].map dumpNote)),
      ((kLength), Json.str (("4:0").toList))]) =
      some (Clip.mk 3 (("clip").toList) [witnessNote] (("4:0").toList)) :=
  c7_note_roundtrip [witnessNote] 3 (("clip").toList) (("4:0").toList)
    (by decide) (by decide)

/-- C8 (counterexample): the claim includes expiry of the fixed 30-unit
request timeout among the failures converted to the address-carrying
connection failure, but when the timeout expires during the read phase the
requests library raises ReadTimeout, which is not a ConnectionError
subclass: the `except RequestsConnectionError` clause of lines 128-131 does
not catch it, so it propagates unmodified and no connection-failure error is
produced. -/
theorem c8_counterexample :
    callTool (("http://localhost:3350").toList)
        (TransportOutcome.readTimeout (("read timed out").toList)) =
      Except.error (CallErr.readTimeoutError (("read timed out").toList)) ∧
    isConnectionFailure (callTool (("http://localhost:3350").toList)
        (TransportOutcome.readTimeout (("read timed out").toList))) = false :=
  ⟨rfl, rfl⟩

/-- C8 (amended): a transport-level connection failure raised as requests'
ConnectionError — which includes connect-phase expiry of the 30-unit
timeout, raised as its subclass ConnectTimeout, but not read-phase expiry,
raised as ReadTimeout — makes the call fail with the connection-failure
error carrying the target address and the underlying cause; a read-phase
timeout propagates unmodified; and the connection-failure kind arises from
no other outcome — every other failure is a propagated HTTP status error,
the propagated ReadTimeout, or a decoder error. -/
theorem c8_connection_failure_only (base cause : List Char) :
    callTool base (TransportOutcome.connectionError cause) =
      Except.error (CallErr.connectionFailure base cause) ∧
    callTool base (TransportOutcome.readTimeout cause) =
      Except.error (CallErr.readTimeoutError cause) ∧
    (∀ (o : TransportOutcome) (a c : List Char),
      callTool base o = Except.error (CallErr.connectionFailure a c) →
        a = base ∧ o = TransportOutcome.connectionError c) := by
  refine ⟨rfl, rfl, ?_⟩
  intro o a c hcall
  cases o with
  | connectionError cz =>
    rw [callTool] at hcall
    have := Except.error.inj hcall
    obtain ⟨ha, hc⟩ := CallErr.connectionFailure.inj this
    exact ⟨ha.symm, by rw [hc]⟩
  | readTimeout cz =>
    rw [callTool] at hcall
    exact absurd (Except.error.inj hcall) (by intro hh; cases hh)
  | success ct status body =>
    rw [callTool] at hcall
    by_cases hs : 400 ≤ status ∧ status ≤ 599
    · rw [if_pos hs] at hcall
      exact absurd (Except.error.inj hcall) (by intro hh; cases hh)
    · rw [if_neg hs] at hcall
      cases hdec : callToolDecode ct body with
      | ok j =>
        rw [hdec] at hcall
        cases hcall
      | error e =>
        rw [hdec] at hcall
        exact absurd (Except.error.inj hcall) (by intro hh; cases hh)

/-- Witness for C8 at a concrete base address and cause, also instantiating
the uniqueness conjunct at the connection-error outcome. -/
theorem c8_connection_failure_only_witness :
    (callTool (("http://localhost:3350").toList)
        (TransportOutcome.connectionError (("refused").toList)) =
      Except.error (CallErr.connectionFailure (("http://localhost:3350").toList)
        (("refused").toList))) ∧
    (("http://localhost:3350").toList = ("http://localhost:3350").toList ∧
      TransportOutcome.connectionError (("refused").toList) =
        TransportOutcome.connectionError (("refused").toList)) :=
  ⟨(c8_connection_failure_only (("http://localhost:3350").toList)
      (("refused").toList)).1,
    (c8_connection_failure_only (("http://localhost:3350").toList)
      (("refused").toList)).2.2
      (TransportOutcome.connectionError (("refused").toList))
      (("http://localhost:3350").toList) (("refused").toList) rfl⟩
